import Mathlib

/-!
Shallow embedding of the k3d cluster-lifecycle backend (`package run`, file
`src/unnamed/part_000`) and proofs about its orchestration logic.

The embedded operations are `CreateCluster`, `DeleteCluster`, `StopCluster`,
`StartCluster` and `AddNode`.  Pure helpers that the backend calls but whose
source lives outside `src/` (`getClusters`, `createServer`, `createWorker`,
`createClusterNetwork`, `createImageVolume`, `removeContainer`, ...) are
modelled from the spec and marked as such in their doc comments.  The container
runtime is modelled as an explicit state (`RTState`) holding the containers,
networks, volumes and cluster directories that exist; runtime calls that may
fail take an injected failure predicate on resource identifiers.  Go `int`
values are modelled as `Int` (overflow is irrelevant at the scales involved),
and Go string scanning loops are translated into structural recursion over
`List Char` / `List String` so that every definition is executable.
-/

namespace K3d

/-! ### Characters and strings: Go `strings.Split`, `strings.SplitN`, `strconv.Atoi` -/

/-- Model of Go `strings.Split(s, "-")` on the character list of `s`:
splits into the (possibly empty) chunks between `'-'` separators. -/
def splitDash : List Char → List (List Char)
  | [] => [[]]
  | c :: rest =>
    let r := splitDash rest
    if c = '-' then [] :: r
    else
      match r with
      | [] => [[c]]
      | h :: t => (c :: h) :: t

/-- Numeric value of a decimal digit character, `none` for a non-digit. -/
def digitVal (c : Char) : Option Nat :=
  if ('0' ≤ c ∧ c ≤ '9') then some (c.toNat - ('0').toNat) else none

/-- Accumulating loop of `digitsToNat`. -/
def digitsToNatLoop : List Char → Nat → Option Nat
  | [], acc => some acc
  | c :: rest, acc =>
    match digitVal c with
    | none => none
    | some d => digitsToNatLoop rest (acc * 10 + d)

/-- Decimal unsigned parse: fails on the empty list and on any non-digit. -/
def digitsToNat (s : List Char) : Option Nat :=
  match s with
  | [] => none
  | _ => digitsToNatLoop s 0

/-- Model of Go `strconv.Atoi`: an optional sign followed by one or more
decimal digits (overflow not modelled, values are unbounded `Int`). -/
def atoiChars (s : List Char) : Option Int :=
  match s with
  | [] => (digitsToNat []).map (fun (n : Nat) => (n : Int))
  | c :: rest =>
    if c = '+' then (digitsToNat rest).map (fun (n : Nat) => (n : Int))
    else if c = '-' then (digitsToNat rest).map (fun (n : Nat) => -(n : Int))
    else (digitsToNat (c :: rest)).map (fun (n : Nat) => (n : Int))

/-- Model of `strings.SplitN(envVar, "=", 2)[0]`: the part of the string
before the first `'='` (the whole string when no `'='` occurs). -/
def keyOfEnvVar (s : String) : List Char :=
  s.data.takeWhile (fun c => c ≠ '=')

/-! ### Runtime state and the data model -/

/-- A container as recorded by the runtime: identifier, name and the
`cluster` / `component` labels it was created with (the `app=k3d` label is
implicit: the model state only ever holds containers of this application). -/
structure Container where
  id : String
  name : String
  cluster : String
  component : String
deriving DecidableEq

/-- Discovered view of one cluster: its name, its server container and its
worker containers (spec section 3, reconstructed from labels on every query). -/
structure Cluster where
  name : String
  server : Container
  workers : List Container
deriving DecidableEq

/-- State of the container runtime plus the local cluster directories:
everything the backend creates or removes. -/
structure RTState where
  containers : List Container
  networks : List String
  volumes : List String
  dirs : List String
deriving DecidableEq

/-- Modelled from the spec: `createClusterNetwork` (not under `src/`) creates
one network per cluster "named deterministically from the cluster name". -/
def clusterNetworkName (name : String) : String := ("k3d-") ++ name

/-- Modelled from the spec: `createImageVolume` (not under `src/`) creates one
image-sharing volume per cluster, named deterministically from the name. -/
def imageVolumeName (name : String) : String := ("k3d-") ++ name ++ ("-images")

/-- Modelled from the spec: `createServer` (not under `src/`) creates the
server container labelled `cluster=<name>`, `component=server`. -/
def serverContainer (name : String) : Container :=
  ⟨("id-") ++ name ++ ("-server"), name ++ ("-server"), name, ("server")⟩

/-- Modelled from the spec: `createWorker` (not under `src/`) creates a worker
container named `<cluster>-worker-<suffix>`, labelled `component=worker`. -/
def workerContainer (name : String) (suffix : Int) : Container :=
  ⟨("id-") ++ name ++ ("-worker-") ++ toString suffix,
   name ++ ("-worker-") ++ toString suffix, name, ("worker")⟩

/-- First-occurrence deduplication of a name list, used to group containers
by their `cluster` label. -/
def dedupKeepFirst : List String → List String
  | [] => []
  | n :: rest => n :: (dedupKeepFirst rest).filter (fun m => m ≠ n)

/-- Modelled from the spec: `getClusters` (the Registry discovery query, not
under `src/`).  Filters containers on the labels (`cluster=<name>` unless
`all`), groups them by the `cluster` label value, and forms a cluster from
each group's `component=server` container together with its
`component=worker` containers; a name with zero matching containers is
simply absent from the result.  The spec additionally orders workers by
ascending name suffix and reports a consistency error on duplicate servers;
neither matters to the claims settled here, so groups without a server are
dropped and the first listed server is taken. -/
def getClusters (all : Bool) (name : String) (st : RTState) : List Cluster :=
  let matching := st.containers.filter (fun c => all || c.cluster = name)
  let clusterNames := dedupKeepFirst (matching.map (fun c => c.cluster))
  clusterNames.filterMap (fun n =>
    let members := matching.filter (fun c => c.cluster = n)
    match members.filter (fun c => c.component = ("server")) with
    | [] => none
    | s :: _ => some ⟨n, s, members.filter (fun c => c.component = ("worker"))⟩)

/-- Modelled from the spec: `removeContainer` (not under `src/`) removes the
container with the given id from the runtime. -/
def removeContainerState (id : String) (st : RTState) : RTState :=
  { st with containers := st.containers.filter (fun c => c.id ≠ id) }

/-- Modelled from the spec: `deleteClusterDir` (not under `src/`) removes the
local artifact directory of the cluster. -/
def deleteClusterDirState (name : String) (st : RTState) : RTState :=
  { st with dirs := st.dirs.filter (fun d => d ≠ name) }

/-- Modelled from the spec: `deleteClusterNetwork` (not under `src/`) removes
the cluster's network. -/
def deleteClusterNetworkState (name : String) (st : RTState) : RTState :=
  { st with networks := st.networks.filter (fun n => n ≠ clusterNetworkName name) }

/-- Modelled from the spec: `deleteImageVolume` (not under `src/`) removes the
cluster's image volume. -/
def deleteImageVolumeState (name : String) (st : RTState) : RTState :=
  { st with volumes := st.volumes.filter (fun v => v ≠ imageVolumeName name) }

/-! ### DeleteCluster (source lines 279-319)

Per discovered cluster: remove the workers one by one, continuing past
individual failures; remove the local directory; remove the server, a failure
there being returned as the overall error; then best-effort remove the
network and the image volume, failures there being logged warnings only.
Runtime-call failures are injected through predicates on resource names. -/

/-- Events recorded while a cluster is being deleted, in execution order. -/
inductive DelEvent
  | removedWorker (id : String)
  | workerRemoveFailed (id : String)
  | removedDir (name : String)
  | removedServer (id : String)
  | removedNetwork (name : String)
  | networkRemoveWarning (name : String)
  | removedVolume (name : String)
  | volumeRemoveWarning (name : String)
deriving DecidableEq

/-- Worker-removal loop of `DeleteCluster` (source lines 290-299): each
failure is logged and the loop continues with the next worker. -/
def removeWorkersLoop (cFail : String → Bool) : List Container → RTState → RTState × List DelEvent
  | [], st => (st, [])
  | w :: rest, st =>
    if cFail w.id then
      let r := removeWorkersLoop cFail rest st
      (r.1, DelEvent.workerRemoveFailed w.id :: r.2)
    else
      let r := removeWorkersLoop cFail rest (removeContainerState w.id st)
      (r.1, DelEvent.removedWorker w.id :: r.2)

/-- Body of `DeleteCluster`'s per-cluster loop (source lines 288-316):
workers, then the local directory, then the server (fatal on failure), then
best-effort network and volume removal. -/
def deleteOneCluster (cFail nFail vFail : String → Bool) (cl : Cluster) (st : RTState) :
    RTState × List DelEvent × Except String Unit :=
  let r1 := removeWorkersLoop cFail cl.workers st
  let st2 := deleteClusterDirState cl.name r1.1
  let evs2 := r1.2 ++ [DelEvent.removedDir cl.name]
  if cFail cl.server.id then
    (st2, evs2, Except.error (("ERROR: Couldn't remove server for cluster ") ++ cl.name))
  else
    let st3 := removeContainerState cl.server.id st2
    let evs3 := evs2 ++ [DelEvent.removedServer cl.server.id]
    let netPair :=
      if nFail (clusterNetworkName cl.name) then
        (st3, evs3 ++ [DelEvent.networkRemoveWarning cl.name])
      else
        (deleteClusterNetworkState cl.name st3, evs3 ++ [DelEvent.removedNetwork cl.name])
    let volPair :=
      if vFail (imageVolumeName cl.name) then
        (netPair.1, netPair.2 ++ [DelEvent.volumeRemoveWarning cl.name])
      else
        (deleteImageVolumeState cl.name netPair.1, netPair.2 ++ [DelEvent.removedVolume cl.name])
    (volPair.1, volPair.2, Except.ok ())

/-- Loop of `DeleteCluster` over the discovered clusters; a fatal server
removal returns immediately, leaving later clusters unprocessed. -/
def deleteClustersLoop (cFail nFail vFail : String → Bool) :
    List Cluster → RTState → RTState × List DelEvent × Except String Unit
  | [], st => (st, [], Except.ok ())
  | cl :: rest, st =>
    match deleteOneCluster cFail nFail vFail cl st with
    | (st2, evs, Except.error e) => (st2, evs, Except.error e)
    | (st2, evs, Except.ok ()) =>
      let r := deleteClustersLoop cFail nFail vFail rest st2
      (r.1, evs ++ r.2.1, r.2.2)

/-- `DeleteCluster` (source lines 279-319): discover the clusters matching
the name, then run the per-cluster removal loop. -/
def DeleteCluster (cFail nFail vFail : String → Bool) (all : Bool) (name : String)
    (st : RTState) : RTState × List DelEvent × Except String Unit :=
  deleteClustersLoop cFail nFail vFail (getClusters all name st) st

/-! ### StopCluster / StartCluster (source lines 322-397)

Stopping and starting do not change which resources exist, so these are
modelled as an event trace plus a result per cluster. -/

/-- Events recorded while a cluster is stopped or started, in execution
order. -/
inductive LifeEvent
  | stoppedWorker (id : String)
  | workerStopFailed (id : String)
  | stoppedServer (id : String)
  | startedServer (id : String)
  | startedWorker (id : String)
  | workerStartFailed (id : String)
deriving DecidableEq

/-- Worker loop of `StopCluster` (source lines 339-347): a failed stop is
logged and the loop continues. -/
def stopWorkersLoop (fail : String → Bool) : List Container → List LifeEvent
  | [] => []
  | w :: rest =>
    (if fail w.id then LifeEvent.workerStopFailed w.id else LifeEvent.stoppedWorker w.id)
      :: stopWorkersLoop fail rest

/-- Body of `StopCluster`'s per-cluster loop (source lines 337-354): stop all
workers first, then the server; a server stop failure is the returned error. -/
def stopOneCluster (fail : String → Bool) (cl : Cluster) : List LifeEvent × Except String Unit :=
  let evs := stopWorkersLoop fail cl.workers
  if fail cl.server.id then
    (evs, Except.error (("ERROR: Couldn't stop server for cluster ") ++ cl.name))
  else
    (evs ++ [LifeEvent.stoppedServer cl.server.id], Except.ok ())

/-- Worker loop of `StartCluster` (source lines 383-391): a failed start is
logged and the loop continues. -/
def startWorkersLoop (fail : String → Bool) : List Container → List LifeEvent
  | [] => []
  | w :: rest =>
    (if fail w.id then LifeEvent.workerStartFailed w.id else LifeEvent.startedWorker w.id)
      :: startWorkersLoop fail rest

/-- Body of `StartCluster`'s per-cluster loop (source lines 375-391): start
the server first — a failure there returns before any worker is attempted —
then start the workers, continuing past individual failures. -/
def startOneCluster (fail : String → Bool) (cl : Cluster) : List LifeEvent × Except String Unit :=
  if fail cl.server.id then
    ([], Except.error (("ERROR: Couldn't start server for cluster ") ++ cl.name))
  else
    (LifeEvent.startedServer cl.server.id :: startWorkersLoop fail cl.workers, Except.ok ())

/-- Loop of `StopCluster` over the discovered clusters; a fatal server stop
aborts the remaining clusters, as the Go code returns from inside the loop. -/
def stopClustersLoop (fail : String → Bool) : List Cluster → List LifeEvent × Except String Unit
  | [] => ([], Except.ok ())
  | cl :: rest =>
    match stopOneCluster fail cl with
    | (evs, Except.error e) => (evs, Except.error e)
    | (evs, Except.ok ()) =>
      let r := stopClustersLoop fail rest
      (evs ++ r.1, r.2)

/-- `StopCluster` (source lines 322-357). -/
def StopCluster (fail : String → Bool) (all : Bool) (name : String) (st : RTState) :
    List LifeEvent × Except String Unit :=
  stopClustersLoop fail (getClusters all name st)

/-- Loop of `StartCluster` over the discovered clusters. -/
def startClustersLoop (fail : String → Bool) : List Cluster → List LifeEvent × Except String Unit
  | [] => ([], Except.ok ())
  | cl :: rest =>
    match startOneCluster fail cl with
    | (evs, Except.error e) => (evs, Except.error e)
    | (evs, Except.ok ()) =>
      let r := startClustersLoop fail rest
      (evs ++ r.1, r.2)

/-- `StartCluster` (source lines 360-397). -/
def StartCluster (fail : String → Bool) (all : Bool) (name : String) (st : RTState) :
    List LifeEvent × Except String Unit :=
  startClustersLoop fail (getClusters all name st)

/-! ### CreateCluster (source lines 44-276)

The configuration section (lines 56-209) validates the name, checks
uniqueness against the discovered clusters, creates the cluster network
(line 96), builds the environment list (lines 107-109) and creates the image
volume (line 186); the creation section (lines 211-263) creates the local
cluster directory (line 223), then the server (line 229), optionally waits
for the readiness marker (lines 241-246), then creates the workers with
ordinals `0 .. N-1` (lines 253-263).  Any failure of server creation, of the
readiness wait or of a worker creation triggers the `deleteCluster` rollback
closure (lines 49-54), which is exactly a call of `DeleteCluster` on the same
name; the rollback is modelled with all runtime removals succeeding, which is
the favourable case for the rollback-completeness claim.  Failure injection
for the creation steps is a `FailAt` tag. -/

/-- Environment list built for the server container (source lines 107-109):
the fixed kubeconfig output path, then the user-supplied variables, then the
generated cluster-secret variable. -/
def createClusterEnv (userEnv : List String) (secret : String) : List String :=
  let env := [("K3S_KUBECONFIG_OUTPUT=/output/kubeconfig.yaml")]
  let env := env ++ userEnv
  let env := env ++ [("K3S_CLUSTER_SECRET=") ++ secret]
  env

/-- Environment order as the spec's words describe it, for comparison with
`createClusterEnv`: the fixed kubeconfig output-path variable, then the
generated cluster-secret variable, with the user-supplied variables appended
last. -/
def specCreateClusterEnv (userEnv : List String) (secret : String) : List String :=
  [("K3S_KUBECONFIG_OUTPUT=/output/kubeconfig.yaml"), ("K3S_CLUSTER_SECRET=") ++ secret]
    ++ userEnv

/-- Which creation step of `CreateCluster` fails, if any. -/
inductive FailAt
  | server
  | wait
  | worker (k : Nat)
  | noFail
deriving DecidableEq

/-- Steps of `CreateCluster` in the order they were executed. -/
inductive CreateStep
  | checkedName
  | checkedUnique
  | createdNetwork
  | createdImageVolume
  | createdClusterDir
  | createdServer
  | waitedReady
  | createdWorker (i : Nat)
  | rolledBack
deriving DecidableEq

/-- Rollback closure of `CreateCluster` (source lines 49-54): a call of
`DeleteCluster` on the same name, with the runtime removals succeeding. -/
def rollbackState (name : String) (st : RTState) : RTState :=
  (DeleteCluster (fun _ => false) (fun _ => false) (fun _ => false) false name st).1

/-- Worker-creation loop of `CreateCluster` (source lines 253-263): Go
`for i := 0; i < N; i++`, written with the remaining iteration count
`rem = N - i` as the (structural) recursion argument.  Workers are created
with ordinals `i, i+1, ...`; on a failure the rollback runs and the error is
returned. -/
def createWorkersLoopFuel (fail : FailAt) (name : String) : Nat → Nat → RTState →
    RTState × List CreateStep × Except String Unit
  | _, 0, st => (st, [], Except.ok ())
  | i, rem + 1, st =>
    if fail = FailAt.worker i then
      (rollbackState name st, [CreateStep.rolledBack],
        Except.error (("ERROR: Couldn't create worker ") ++ toString i))
    else
      let st2 := { st with containers := st.containers ++ [workerContainer name (Int.ofNat i)] }
      let r := createWorkersLoopFuel fail name (i + 1) rem st2
      (r.1, CreateStep.createdWorker i :: r.2.1, r.2.2)

/-- Worker-creation loop of `CreateCluster` starting at ordinal `i` with
upper bound `N` (exclusive). -/
def createWorkersLoop (fail : FailAt) (name : String) (N : Nat) (st : RTState) (i : Nat) :
    RTState × List CreateStep × Except String Unit :=
  createWorkersLoopFuel fail name i (N - i) st

/-- `CreateCluster` (source lines 44-276).  `nameValid` stands for the result
of `CheckClusterName` (not under `src/`, modelled from the spec: the name
must be a valid hostname fragment); `waitSet` for `c.IsSet("wait")`. -/
def CreateCluster (fail : FailAt) (nameValid : Bool) (name : String) (workers : Nat)
    (waitSet : Bool) (st : RTState) : RTState × List CreateStep × Except String Unit :=
  if nameValid = false then
    (st, [], Except.error (("ERROR: invalid cluster name ") ++ name))
  else
    let evs1 := [CreateStep.checkedName]
    if getClusters false name st ≠ [] then
      (st, evs1, Except.error (("ERROR: Cluster ") ++ name ++ (" already exists")))
    else
      let evs2 := evs1 ++ [CreateStep.checkedUnique]
      let st1 := { st with networks := st.networks ++ [clusterNetworkName name] }
      let evs3 := evs2 ++ [CreateStep.createdNetwork]
      let st2 := { st1 with volumes := st1.volumes ++ [imageVolumeName name] }
      let evs4 := evs3 ++ [CreateStep.createdImageVolume]
      let st3 := { st2 with dirs := st2.dirs ++ [name] }
      let evs5 := evs4 ++ [CreateStep.createdClusterDir]
      if fail = FailAt.server then
        (rollbackState name st3, evs5 ++ [CreateStep.rolledBack],
          Except.error ("ERROR: Couldn't create server"))
      else
        let st4 := { st3 with containers := st3.containers ++ [serverContainer name] }
        let evs6 := evs5 ++ [CreateStep.createdServer]
        if waitSet ∧ fail = FailAt.wait then
          (rollbackState name st4, evs6 ++ [CreateStep.rolledBack],
            Except.error ("ERROR: failed while waiting for server to come up"))
        else
          let evs7 := evs6 ++ (if waitSet then [CreateStep.waitedReady] else [])
          let r := createWorkersLoop fail name workers st4 0
          (r.1, evs7 ++ r.2.1, r.2.2)

/-! ### AddNode (source lines 439-614)

Only the worker ("agent") role creates nodes.  The join configuration is
derived from the server container's configured environment and command:
the cluster-secret entry is looked up by key (lines 513-521, last match
wins, the empty string acting as the not-found sentinel), the listen port is
the element following the `--https-listen-port` flag (lines 526-534 — note
the unguarded `Cmd[cmdIndex+1]` access, modelled by the `panicked` outcome),
and the next worker ordinals continue from the highest existing numeric
worker-name suffix (lines 551-574, 603-611). -/

/-- Loop of the cluster-secret extraction (source lines 513-518): scans the
environment list, remembering the last entry whose key is
`K3S_CLUSTER_SECRET`; the empty string means "not found". -/
def extractClusterSecretLoop : List String → String → String
  | [], acc => acc
  | envVar :: rest, acc =>
    extractClusterSecretLoop rest
      (if keyOfEnvVar envVar = ("K3S_CLUSTER_SECRET").data then envVar else acc)

/-- Cluster-secret extraction from the server container's environment. -/
def extractClusterSecret (env : List String) : String :=
  extractClusterSecretLoop env ("")

/-- Result of the listen-port scan: the final value of the Go variable
`serverListenPort`, or the out-of-bounds index panic. -/
inductive PortScan
  | value (port : String)
  | panicked
deriving DecidableEq

/-- Loop of the listen-port extraction (source lines 526-531): scans the
command list; at each element equal to `--https-listen-port` it reads the
next element (`Cmd[cmdIndex+1]` — an index panic when the flag is the last
element) into the accumulator and the scan continues. -/
def extractListenPortLoop : List String → String → PortScan
  | [], acc => PortScan.value acc
  | cmdPart :: rest, acc =>
    if cmdPart = ("--https-listen-port") then
      match rest with
      | [] => PortScan.panicked
      | v :: _ => extractListenPortLoop rest v
    else
      extractListenPortLoop rest acc

/-- Listen-port extraction from the server container's command list;
the empty string means "not found". -/
def extractListenPort (cmd : List String) : PortScan :=
  extractListenPortLoop cmd ("")

/-- Trailing numeric suffix of a worker container name: Go
`strconv.Atoi(split[len(split)-1])` where `split = strings.Split(name, "-")`
(source lines 565-566). -/
def trailingSuffix (name : String) : Option Int :=
  atoiChars ((splitDash name.data).getLastD [])

/-- Loop computing the highest existing worker suffix (source lines
564-573): any unparsable suffix aborts with an error; the accumulator starts
at `0`. -/
def highestWorkerSuffixLoop : List String → Int → Except String Int
  | [], acc => Except.ok acc
  | w :: rest, acc =>
    match trailingSuffix w with
    | none => Except.error ("ERROR: failed to get highest worker suffix")
    | some currSuffix =>
      highestWorkerSuffixLoop rest (if currSuffix > acc then currSuffix else acc)

/-- Highest existing worker suffix of the given worker names, starting from
the initial accumulator `0` (source line 551). -/
def highestWorkerSuffix (workerNames : List String) : Except String Int :=
  highestWorkerSuffixLoop workerNames 0

/-- Body of the worker-creation loop of `AddNode`, with the remaining
iteration count as the (structural) recursion argument. -/
def addNodeSuffixLoopFuel (suffix : Int) : Nat → List Int
  | 0 => []
  | rem + 1 => suffix :: addNodeSuffixLoopFuel (suffix + 1) rem

/-- Worker-creation loop of `AddNode` (source lines 603-611): Go
`for suffix := highest+1; suffix < count+1+highest; suffix++`, collected as
the list of created ordinals.  The loop body runs once per integer in
`[suffix, bound)`, i.e. `(bound - suffix).toNat` times. -/
def addNodeSuffixLoop (suffix bound : Int) : List Int :=
  addNodeSuffixLoopFuel suffix (bound - suffix).toNat

/-- Outcome of `AddNode`: the environment given to the new workers and the
list of created ordinals, or a returned error, or the index panic of the
listen-port scan. -/
inductive AddNodeOutcome
  | created (env : List String) (suffixes : List Int)
  | failed (msg : String)
  | panicked
deriving DecidableEq

/-- `AddNode` for the worker role (source lines 439-614), as a function of
the inspected server container's environment, command and name, the existing
worker container names and the requested node count.  The docker-client
plumbing (lines 480-499, 539-546) is elided; the secret extraction, port
extraction, suffix computation and creation loop follow the source. -/
def AddNode (serverEnv serverCmd : List String) (serverName : String)
    (workerNames : List String) (nodeCount : Int) : AddNodeOutcome :=
  let clusterSecretEnvVar := extractClusterSecret serverEnv
  if clusterSecretEnvVar = ("") then
    AddNodeOutcome.failed ("ERROR: couldn't get cluster secret from server container")
  else
    match extractListenPort serverCmd with
    | PortScan.panicked => AddNodeOutcome.panicked
    | PortScan.value serverListenPort =>
      if serverListenPort = ("") then
        AddNodeOutcome.failed ("ERROR: couldn't get https-listen-port form server contaienr")
      else
        match highestWorkerSuffix workerNames with
        | Except.error e => AddNodeOutcome.failed e
        | Except.ok highest =>
          let serverURLEnvVar :=
            ("K3S_URL=https://") ++ serverName ++ (":") ++ serverListenPort
          let env := [serverURLEnvVar, clusterSecretEnvVar]
          AddNodeOutcome.created env (addNodeSuffixLoop (highest + 1) (nodeCount + 1 + highest))

/-! ## Helper lemmas -/

/-- Worker events of the stop loop: every worker gets exactly one attempt, in
list order, failed ones marked and skipped. -/
theorem stopWorkersLoop_eq_map (fail : String → Bool) (ws : List Container) :
    stopWorkersLoop fail ws =
      ws.map (fun w =>
        if fail w.id then LifeEvent.workerStopFailed w.id else LifeEvent.stoppedWorker w.id) := by
  induction ws with
  | nil => rfl
  | cons w rest ih => simp [stopWorkersLoop, ih]

/-- Worker events of the start loop: every worker gets exactly one attempt, in
list order, failed ones marked and skipped. -/
theorem startWorkersLoop_eq_map (fail : String → Bool) (ws : List Container) :
    startWorkersLoop fail ws =
      ws.map (fun w =>
        if fail w.id then LifeEvent.workerStartFailed w.id else LifeEvent.startedWorker w.id) := by
  induction ws with
  | nil => rfl
  | cons w rest ih => simp [startWorkersLoop, ih]

/-- Worker events of the delete loop: every worker gets exactly one removal
attempt, in list order, failed ones marked and skipped. -/
theorem removeWorkersLoop_events (cFail : String → Bool) (ws : List Container) :
    ∀ st : RTState, (removeWorkersLoop cFail ws st).2 =
      ws.map (fun w =>
        if cFail w.id then DelEvent.workerRemoveFailed w.id else DelEvent.removedWorker w.id) := by
  induction ws with
  | nil => intro st; rfl
  | cons w rest ih =>
    intro st
    by_cases h : cFail w.id <;> simp [removeWorkersLoop, h, ih]

/-- Discovery on a state that holds no container of the given cluster finds
nothing (the spec's "a cluster name with no matching containers is simply
absent"). -/
theorem getClusters_eq_nil (name : String) (st : RTState)
    (h : ∀ c ∈ st.containers, c.cluster ≠ name) : getClusters false name st = [] := by
  unfold getClusters
  have hf : st.containers.filter (fun c => false || c.cluster = name) = [] := by
    rw [List.filter_eq_nil_iff]
    intro c hc
    simp [h c hc]
  simp only [hf]
  rfl

/-! ## Claim theorems -/

/-- C2 counterexample: with a single user-supplied variable the environment
list injected into the server container ends with the generated
cluster-secret variable, not with the user entry; the order the claim states
(`specCreateClusterEnv`) differs from the order the code builds
(`createClusterEnv`). -/
theorem createClusterEnv_user_not_last :
    createClusterEnv [("FOO=1")] ("s") ≠ specCreateClusterEnv [("FOO=1")] ("s") ∧
    (createClusterEnv [("FOO=1")] ("s")).getLast? = some ("K3S_CLUSTER_SECRET=s") := by
  decide

/-- C2 amended: for every Create invocation, the injected environment list is
the fixed kubeconfig output-path variable first, then the user-supplied
variables, and the generated cluster-secret variable last (the secret — not
the user entries — is the final element of the list). -/
theorem createClusterEnv_order (userEnv : List String) (secret : String) :
    createClusterEnv userEnv secret =
      ("K3S_KUBECONFIG_OUTPUT=/output/kubeconfig.yaml")
        :: (userEnv ++ [("K3S_CLUSTER_SECRET=") ++ secret]) ∧
    (createClusterEnv userEnv secret).getLast? = some (("K3S_CLUSTER_SECRET=") ++ secret) ∧
    (createClusterEnv userEnv secret).head? =
      some ("K3S_KUBECONFIG_OUTPUT=/output/kubeconfig.yaml") := by
  refine ⟨by simp [createClusterEnv], ?_, by simp [createClusterEnv]⟩
  have h : createClusterEnv userEnv secret =
      (("K3S_KUBECONFIG_OUTPUT=/output/kubeconfig.yaml") :: userEnv)
        ++ [("K3S_CLUSTER_SECRET=") ++ secret] := by
    simp [createClusterEnv]
  rw [h, List.getLast?_concat]

/-- C6: stopping a cluster attempts every worker first — failed worker stops
are skipped while the remaining workers are still processed — and the server
last, a server stop failure being the fatal result; starting a cluster
attempts the server first — a server start failure is fatal and no worker is
attempted — and then every worker, failed worker starts being skipped while
the remaining workers are still processed. -/
theorem stopStart_order (fail : String → Bool) (cl : Cluster) :
    (stopOneCluster fail cl).1 =
      cl.workers.map (fun w =>
          if fail w.id then LifeEvent.workerStopFailed w.id else LifeEvent.stoppedWorker w.id)
        ++ (if fail cl.server.id then [] else [LifeEvent.stoppedServer cl.server.id]) ∧
    ((stopOneCluster fail cl).2 = Except.ok () ↔ fail cl.server.id = false) ∧
    (startOneCluster fail cl).1 =
      (if fail cl.server.id then [] else
        LifeEvent.startedServer cl.server.id ::
          cl.workers.map (fun w =>
            if fail w.id then LifeEvent.workerStartFailed w.id else LifeEvent.startedWorker w.id)) ∧
    ((startOneCluster fail cl).2 = Except.ok () ↔ fail cl.server.id = false) := by
  unfold stopOneCluster startOneCluster
  by_cases h : fail cl.server.id <;>
    simp [h, stopWorkersLoop_eq_map, startWorkersLoop_eq_map]

/-- C7: deleting a cluster attempts every worker individually (failures are
skipped, the remaining workers still processed), then removes the local
artifact directory, then the server — a server removal failure is the fatal
result and neither the network nor the volume step runs — and finally the
network and the image volume, whose failures are recorded as warnings and
never change the success result. -/
theorem deleteCluster_order (cFail nFail vFail : String → Bool) (cl : Cluster) (st : RTState) :
    (deleteOneCluster cFail nFail vFail cl st).2.1 =
      cl.workers.map (fun w =>
          if cFail w.id then DelEvent.workerRemoveFailed w.id else DelEvent.removedWorker w.id)
        ++ [DelEvent.removedDir cl.name]
        ++ (if cFail cl.server.id then [] else
            [DelEvent.removedServer cl.server.id,
             if nFail (clusterNetworkName cl.name) then DelEvent.networkRemoveWarning cl.name
               else DelEvent.removedNetwork cl.name,
             if vFail (imageVolumeName cl.name) then DelEvent.volumeRemoveWarning cl.name
               else DelEvent.removedVolume cl.name]) ∧
    ((deleteOneCluster cFail nFail vFail cl st).2.2 = Except.ok ()
      ↔ cFail cl.server.id = false) := by
  unfold deleteOneCluster
  by_cases hs : cFail cl.server.id <;>
    by_cases hn : nFail (clusterNetworkName cl.name) <;>
      by_cases hv : vFail (imageVolumeName cl.name) <;>
        simp [hs, hn, hv, removeWorkersLoop_events]

/-- C8: deleting a name for which no labeled containers exist performs no
removal, changes nothing, returns no error, and a subsequent discovery still
returns zero clusters for that name. -/
theorem deleteCluster_idempotent (cFail nFail vFail : String → Bool) (name : String)
    (st : RTState) (h : ∀ c ∈ st.containers, c.cluster ≠ name) :
    DeleteCluster cFail nFail vFail false name st = (st, [], Except.ok ()) ∧
    getClusters false name (DeleteCluster cFail nFail vFail false name st).1 = [] := by
  have h0 := getClusters_eq_nil name st h
  have h1 : DeleteCluster cFail nFail vFail false name st = (st, [], Except.ok ()) := by
    unfold DeleteCluster
    rw [h0]
    rfl
  exact ⟨h1, by rw [h1]; exact h0⟩

/-- C8 witness: deleting the name `demo` on an empty runtime is a no-op
without error and discovers nothing afterwards. -/
theorem deleteCluster_idempotent_witness :
    DeleteCluster (fun _ => false) (fun _ => false) (fun _ => false) false ("demo")
        ⟨[], [], [], []⟩ = (⟨[], [], [], []⟩, [], Except.ok ()) ∧
    getClusters false ("demo")
        (DeleteCluster (fun _ => false) (fun _ => false) (fun _ => false) false ("demo")
          ⟨[], [], [], []⟩).1 = [] :=
  deleteCluster_idempotent (fun _ => false) (fun _ => false) (fun _ => false) ("demo")
    ⟨[], [], [], []⟩ (by intro c hc; cases hc)

/-- Scanning a command list that ends with the flag always reaches that last
element and performs the unguarded one-past-the-end read. -/
theorem extractListenPortLoop_flag_last (l : List String) :
    ∀ acc : String,
      extractListenPortLoop (l ++ [("--https-listen-port")]) acc = PortScan.panicked := by
  induction l with
  | nil => intro acc; rfl
  | cons c rest ih =>
    intro acc
    by_cases hc : c = ("--https-listen-port")
    · subst hc
      cases rest with
      | nil =>
        have h0 := ih ("--https-listen-port")
        simp only [List.nil_append] at h0
        simp [extractListenPortLoop, h0]
      | cons r rs => simpa [extractListenPortLoop] using ih _
    · simpa [extractListenPortLoop, hc] using ih acc

/-- C9: for every command list whose final element is `--https-listen-port`,
the port-extraction scan performs the unguarded read one past the end of the
list (the `panicked` outcome of the embedding) instead of reaching the
missing-port error branch, and `AddNode` on such a server container neither
creates nodes nor returns its port error. -/
theorem addNode_portScan_out_of_bounds (cmd : List String) :
    extractListenPort (cmd ++ [("--https-listen-port")]) = PortScan.panicked ∧
    PortScan.panicked ≠ PortScan.value ("") ∧
    AddNode [("K3S_CLUSTER_SECRET=abc")] (cmd ++ [("--https-listen-port")]) ("srv") [] 1 =
      AddNodeOutcome.panicked := by
  have h := extractListenPortLoop_flag_last cmd ("")
  refine ⟨h, by decide, ?_⟩
  unfold AddNode
  rw [show extractListenPort (cmd ++ [("--https-listen-port")]) = PortScan.panicked from h]
  rfl

/-! ## Helper lemmas for `AddNode` -/

/-- The dash-split of a string is never the empty chunk list. -/
theorem splitDash_ne_nil (s : List Char) : splitDash s ≠ [] := by
  cases s with
  | nil => simp [splitDash]
  | cons c rest =>
    simp only [splitDash]
    by_cases hc : c = '-'
    · simp [hc]
    · simp only [hc, if_false]
      cases splitDash rest <;> simp

/-- No chunk produced by the dash-split contains a dash. -/
theorem splitDash_no_dash (s : List Char) : ∀ ch ∈ splitDash s, ('-') ∉ ch := by
  induction s with
  | nil =>
    intro ch hch
    simp [splitDash] at hch
    simp [hch]
  | cons c rest ih =>
    intro ch hch
    simp only [splitDash] at hch
    by_cases hc : c = '-'
    · simp only [hc, if_true] at hch
      rcases List.mem_cons.mp hch with h | h
      · simp [h]
      · exact ih ch h
    · simp only [hc, if_false] at hch
      rcases hr : splitDash rest with _ | ⟨h0, t0⟩
      · exact absurd hr (splitDash_ne_nil rest)
      · rw [hr] at hch
        rcases List.mem_cons.mp hch with h | h
        · subst h
          intro hmem
          rcases List.mem_cons.mp hmem with h1 | h1
          · exact hc h1.symm
          · exact ih h0 (by rw [hr]; exact List.mem_cons_self h0 t0) h1
        · exact ih ch (by rw [hr]; exact List.mem_cons_of_mem h0 h)

/-- The last element (with default) of a nonempty list is one of its
elements. -/
theorem getLastD_mem {α : Type} (l : List α) (d : α) (h : l ≠ []) : l.getLastD d ∈ l := by
  induction l generalizing d with
  | nil => exact absurd rfl h
  | cons x t ih =>
    rw [List.getLastD_cons]
    cases ht : t with
    | nil => simp [ht]
    | cons y t2 =>
      rw [← ht]
      have := ih x (by simp [ht])
      exact List.mem_cons_of_mem x this

/-- A dash-free character list never parses to a negative integer. -/
theorem atoiChars_nonneg (s : List Char) (hs : ('-') ∉ s) :
    ∀ n : Int, atoiChars s = some n → 0 ≤ n := by
  intro n hn
  cases s with
  | nil => simp [atoiChars, digitsToNat] at hn
  | cons c rest =>
    by_cases hp : c = '+'
    · simp only [atoiChars, hp, if_true, Option.map_eq_some'] at hn
      obtain ⟨k, hk1, hk⟩ := hn
      change ((k : Nat) : Int) = n at hk
      omega
    · have hm : c ≠ '-' := by
        intro hEq
        exact hs (by rw [hEq] at *; exact List.mem_cons_self _ _)
      simp only [atoiChars, hp, hm, if_false, Option.map_eq_some'] at hn
      obtain ⟨k, hk1, hk⟩ := hn
      change ((k : Nat) : Int) = n at hk
      omega

/-- A parsed trailing worker-name suffix is never negative: the last
dash-separated chunk contains no dash, so Go `Atoi` cannot see a minus
sign. -/
theorem trailingSuffix_nonneg (w : String) (n : Int) (h : trailingSuffix w = some n) :
    0 ≤ n := by
  unfold trailingSuffix at h
  exact atoiChars_nonneg _
    (splitDash_no_dash w.data _ (getLastD_mem _ _ (splitDash_ne_nil w.data))) n h

/-- The suffix-maximum fold is at least its accumulator. -/
theorem suffixFold_le_acc (ns : List Int) :
    ∀ acc : Int, acc ≤ ns.foldl (fun a n => if n > a then n else a) acc := by
  induction ns with
  | nil => intro acc; simp
  | cons n rest ih =>
    intro acc
    have h2 := ih (if n > acc then n else acc)
    simp only [List.foldl_cons]
    by_cases h : n > acc <;> simp [h] at h2 ⊢ <;> omega

/-- Every list element is at most the suffix-maximum fold. -/
theorem suffixFold_ge (ns : List Int) :
    ∀ acc : Int, ∀ n ∈ ns, n ≤ ns.foldl (fun a n => if n > a then n else a) acc := by
  induction ns with
  | nil => intro acc n hn; cases hn
  | cons m rest ih =>
    intro acc n hn
    simp only [List.foldl_cons]
    rcases List.mem_cons.mp hn with h | h
    · subst h
      have h2 := suffixFold_le_acc rest (if n > acc then n else acc)
      by_cases hc : n > acc <;> simp [hc] at h2 ⊢ <;> omega
    · exact ih _ n h

/-- The suffix-maximum fold is the accumulator or a list element. -/
theorem suffixFold_mem (ns : List Int) :
    ∀ acc : Int, ns.foldl (fun a n => if n > a then n else a) acc = acc ∨
      ns.foldl (fun a n => if n > a then n else a) acc ∈ ns := by
  induction ns with
  | nil => intro acc; left; rfl
  | cons m rest ih =>
    intro acc
    simp only [List.foldl_cons]
    by_cases hc : m > acc
    · simp only [hc, if_true]
      rcases ih m with h | h
      · right; rw [h]; exact List.mem_cons_self m rest
      · right; exact List.mem_cons_of_mem m h
    · simp only [hc, if_false]
      rcases ih acc with h | h
      · left; exact h
      · right; exact List.mem_cons_of_mem m h

/-- Successful run of the highest-suffix loop: when every name parses, the
result is the fold of the parsed suffixes over the accumulator. -/
theorem highestWorkerSuffixLoop_ok (ws : List String) :
    ∀ (ns : List Int) (acc : Int), ws.map trailingSuffix = ns.map some →
      highestWorkerSuffixLoop ws acc =
        Except.ok (ns.foldl (fun a n => if n > a then n else a) acc) := by
  induction ws with
  | nil =>
    intro ns acc h
    have : ns = [] := by
      cases ns with
      | nil => rfl
      | cons n t => simp at h
    subst this
    rfl
  | cons w rest ih =>
    intro ns acc h
    cases ns with
    | nil => simp at h
    | cons n t =>
      simp only [List.map_cons, List.cons.injEq] at h
      obtain ⟨h1, h2⟩ := h
      simp only [highestWorkerSuffixLoop, h1, List.foldl_cons]
      exact ih t _ h2

/-- Failing run of the highest-suffix loop: one unparsable name makes the
whole scan fail with the parse error. -/
theorem highestWorkerSuffixLoop_error (ws : List String) :
    ∀ acc : Int, (∃ w ∈ ws, trailingSuffix w = none) →
      highestWorkerSuffixLoop ws acc =
        Except.error ("ERROR: failed to get highest worker suffix") := by
  induction ws with
  | nil => intro acc h; obtain ⟨w, hw, _⟩ := h; cases hw
  | cons w0 rest ih =>
    intro acc h
    cases hp : trailingSuffix w0 with
    | none => simp [highestWorkerSuffixLoop, hp]
    | some n =>
      obtain ⟨w, hw, hnone⟩ := h
      rcases List.mem_cons.mp hw with hEq | hmem
      · rw [hEq] at hnone; rw [hp] at hnone; cases hnone
      · simp only [highestWorkerSuffixLoop, hp]
        exact ih _ ⟨w, hmem, hnone⟩

/-- A successful highest-suffix computation never returns less than the
initial accumulator `0`. -/
theorem highestWorkerSuffixLoop_ge (ws : List String) :
    ∀ (acc m : Int), highestWorkerSuffixLoop ws acc = Except.ok m → acc ≤ m := by
  induction ws with
  | nil =>
    intro acc m h
    simp only [highestWorkerSuffixLoop, Except.ok.injEq] at h
    omega
  | cons w rest ih =>
    intro acc m h
    cases hp : trailingSuffix w with
    | none => simp [highestWorkerSuffixLoop, hp] at h
    | some n =>
      simp only [highestWorkerSuffixLoop, hp] at h
      have := ih _ m h
      by_cases hc : n > acc <;> simp [hc] at this <;> omega

/-- Every parsed suffix value comes from one of the worker names. -/
theorem map_trailingSuffix_mem (ws : List String) :
    ∀ ns : List Int, ws.map trailingSuffix = ns.map some →
      ∀ n ∈ ns, ∃ w ∈ ws, trailingSuffix w = some n := by
  induction ws with
  | nil =>
    intro ns h n hn
    cases ns with
    | nil => cases hn
    | cons a t => simp at h
  | cons w rest ih =>
    intro ns h n hn
    cases ns with
    | nil => cases hn
    | cons a t =>
      simp only [List.map_cons, List.cons.injEq] at h
      obtain ⟨h1, h2⟩ := h
      rcases List.mem_cons.mp hn with hEq | hmem
      · exact ⟨w, List.mem_cons_self w rest, by rw [h1, hEq]⟩
      · obtain ⟨w2, hw2, hp⟩ := ih t h2 n hmem
        exact ⟨w2, List.mem_cons_of_mem w hw2, hp⟩

/-- The fuelled `AddNode` creation loop lists consecutive integers starting
at its first argument. -/
theorem addNodeSuffixLoopFuel_eq (n : Nat) :
    ∀ s : Int, addNodeSuffixLoopFuel s n = (List.range n).map (fun (i : Nat) => s + (i : Int)) := by
  induction n with
  | zero => intro s; rfl
  | succ m ih =>
    intro s
    rw [List.range_succ_eq_map]
    simp only [addNodeSuffixLoopFuel, ih (s + 1), List.map_cons, List.map_map,
      List.cons.injEq]
    constructor
    · simp
    · apply List.map_congr_left
      intro i _
      simp only [Function.comp_apply]
      push_cast
      ring

/-- The `AddNode` creation loop, run from `highest + 1` with the Go bound
`count + 1 + highest`, produces exactly the `count` consecutive ordinals
`highest+1, ..., highest+count`. -/
theorem addNodeSuffixLoop_eq (highest count : Int) :
    addNodeSuffixLoop (highest + 1) (count + 1 + highest) =
      (List.range count.toNat).map (fun (i : Nat) => highest + 1 + (i : Int)) := by
  unfold addNodeSuffixLoop
  have h : (count + 1 + highest - (highest + 1)).toNat = count.toNat := by omega
  rw [h, addNodeSuffixLoopFuel_eq]

/-- Appending to the environment scan: the scan of a concatenation threads
the accumulator through the left part first. -/
theorem extractClusterSecretLoop_append (a : List String) :
    ∀ (b : List String) (acc : String),
      extractClusterSecretLoop (a ++ b) acc =
        extractClusterSecretLoop b (extractClusterSecretLoop a acc) := by
  induction a with
  | nil => intro b acc; rfl
  | cons x rest ih =>
    intro b acc
    simp only [List.cons_append, extractClusterSecretLoop]
    exact ih b _

/-- The environment scan leaves its accumulator unchanged over entries whose
key is not the cluster-secret key. -/
theorem extractClusterSecretLoop_noMatch (l : List String)
    (h : ∀ x ∈ l, keyOfEnvVar x ≠ ("K3S_CLUSTER_SECRET").data) :
    ∀ acc : String, extractClusterSecretLoop l acc = acc := by
  induction l with
  | nil => intro acc; rfl
  | cons x rest ih =>
    intro acc
    simp only [extractClusterSecretLoop, h x (List.mem_cons_self x rest), if_false]
    exact ih (fun y hy => h y (List.mem_cons_of_mem x hy)) acc

/-- The environment scan returns the last entry carrying the
cluster-secret key: later non-matching entries do not overwrite it. -/
theorem extractClusterSecret_found (enva envb : List String) (e : String)
    (hkey : keyOfEnvVar e = ("K3S_CLUSTER_SECRET").data)
    (hb : ∀ x ∈ envb, keyOfEnvVar x ≠ ("K3S_CLUSTER_SECRET").data) :
    extractClusterSecret (enva ++ e :: envb) = e := by
  unfold extractClusterSecret
  rw [show enva ++ e :: envb = (enva ++ [e]) ++ envb by simp,
    extractClusterSecretLoop_append, extractClusterSecretLoop_append]
  rw [extractClusterSecretLoop_noMatch envb hb]
  simp [extractClusterSecretLoop, hkey]

/-- An entry whose key is the cluster-secret key is not the empty string. -/
theorem secret_entry_ne_empty (e : String)
    (hkey : keyOfEnvVar e = ("K3S_CLUSTER_SECRET").data) : e ≠ ("") := by
  intro hEq
  rw [hEq] at hkey
  exact absurd hkey (by decide)

/-- The port scan skips over a flag-free initial segment. -/
theorem extractListenPortLoop_skip (l : List String)
    (h : ("--https-listen-port") ∉ l) :
    ∀ (r : List String) (acc : String),
      extractListenPortLoop (l ++ r) acc = extractListenPortLoop r acc := by
  induction l with
  | nil => intro r acc; rfl
  | cons c rest ih =>
    intro r acc
    have hc : c ≠ ("--https-listen-port") := fun hEq => h (by rw [hEq]; exact List.mem_cons_self _ _)
    simp only [List.cons_append, extractListenPortLoop, hc, if_false]
    exact ih (fun hm => h (List.mem_cons_of_mem c hm)) r acc

/-- The port scan over a flag-free list returns its accumulator. -/
theorem extractListenPortLoop_noFlag (l : List String)
    (h : ("--https-listen-port") ∉ l) :
    ∀ acc : String, extractListenPortLoop l acc = PortScan.value acc := by
  intro acc
  have h2 := extractListenPortLoop_skip l h [] acc
  rw [List.append_nil] at h2
  rw [h2]
  rfl

/-- The port scan finds the value following the (sole) occurrence of the
listen-port flag. -/
theorem extractListenPort_found (pre post : List String) (p : String)
    (hpre : ("--https-listen-port") ∉ pre) (hpost : ("--https-listen-port") ∉ post)
    (hp : p ≠ ("--https-listen-port")) :
    extractListenPort (pre ++ ("--https-listen-port") :: p :: post) = PortScan.value p := by
  unfold extractListenPort
  rw [extractListenPortLoop_skip pre hpre]
  simp only [extractListenPortLoop, if_true, hp, if_false]
  exact extractListenPortLoop_noFlag post hpost p

/-! ## Helper lemmas for `CreateCluster` rollback and ordering -/

/-- The worker-removal loop touches only the container list. -/
theorem removeWorkersLoop_fixed (cFail : String → Bool) (ws : List Container) :
    ∀ st : RTState, (removeWorkersLoop cFail ws st).1.networks = st.networks ∧
      (removeWorkersLoop cFail ws st).1.volumes = st.volumes ∧
      (removeWorkersLoop cFail ws st).1.dirs = st.dirs := by
  induction ws with
  | nil => intro st; exact ⟨rfl, rfl, rfl⟩
  | cons w rest ih =>
    intro st
    by_cases h : cFail w.id
    · simpa [removeWorkersLoop, h] using ih st
    · simpa [removeWorkersLoop, h, removeContainerState]
        using ih (removeContainerState w.id st)

/-- Containers surviving the worker-removal loop (with removals succeeding):
those of the input state whose id is none of the removed workers' ids. -/
theorem removeWorkersLoop_noFail_mem (ws : List Container) :
    ∀ (st : RTState) (c : Container),
      c ∈ (removeWorkersLoop (fun _ => false) ws st).1.containers ↔
        (c ∈ st.containers ∧ ∀ w ∈ ws, c.id ≠ w.id) := by
  induction ws with
  | nil => intro st c; simp [removeWorkersLoop]
  | cons w rest ih =>
    intro st c
    simp only [removeWorkersLoop, if_neg Bool.false_ne_true]
    rw [ih]
    simp only [removeContainerState, List.mem_filter, decide_eq_true_eq, List.mem_cons]
    constructor
    · rintro ⟨⟨h1, h2⟩, h3⟩
      refine ⟨h1, ?_⟩
      intro w2 hw2
      rcases hw2 with h | h
      · subst h; exact h2
      · exact h3 w2 h
    · rintro ⟨h1, h2⟩
      exact ⟨⟨h1, h2 w (Or.inl rfl)⟩, fun w2 hw2 => h2 w2 (Or.inr hw2)⟩

/-- State after deleting one cluster with all runtime removals succeeding:
the cluster's workers and server are gone from the containers, its network
and volume are filtered out. -/
theorem deleteOneCluster_noFail (cl : Cluster) (st : RTState) :
    (∀ c : Container,
      c ∈ (deleteOneCluster (fun _ => false) (fun _ => false) (fun _ => false) cl st).1.containers
        ↔ (c ∈ st.containers ∧ (∀ w ∈ cl.workers, c.id ≠ w.id) ∧ c.id ≠ cl.server.id)) ∧
    (deleteOneCluster (fun _ => false) (fun _ => false) (fun _ => false) cl st).1.networks =
      st.networks.filter (fun n => n ≠ clusterNetworkName cl.name) ∧
    (deleteOneCluster (fun _ => false) (fun _ => false) (fun _ => false) cl st).1.volumes =
      st.volumes.filter (fun v => v ≠ imageVolumeName cl.name) ∧
    (deleteOneCluster (fun _ => false) (fun _ => false) (fun _ => false) cl st).2.2 =
      Except.ok () := by
  have hfix := removeWorkersLoop_fixed (fun _ => false) cl.workers st
  refine ⟨?_, ?_, ?_, ?_⟩
  · intro c
    simp only [deleteOneCluster, if_neg Bool.false_ne_true, deleteImageVolumeState,
      deleteClusterNetworkState, removeContainerState, deleteClusterDirState,
      List.mem_filter, decide_eq_true_eq]
    rw [removeWorkersLoop_noFail_mem]
    tauto
  · simp only [deleteOneCluster, if_neg Bool.false_ne_true, deleteImageVolumeState,
      deleteClusterNetworkState, removeContainerState, deleteClusterDirState]
    rw [hfix.1]
  · simp only [deleteOneCluster, if_neg Bool.false_ne_true, deleteImageVolumeState,
      deleteClusterNetworkState, removeContainerState, deleteClusterDirState]
    rw [hfix.2.1]
  · simp [deleteOneCluster]

/-- Deduplication only returns names occurring in its input. -/
theorem dedupKeepFirst_mem (l : List String) : ∀ x ∈ dedupKeepFirst l, x ∈ l := by
  induction l with
  | nil => intro x hx; cases hx
  | cons n rest ih =>
    intro x hx
    simp only [dedupKeepFirst] at hx
    rcases List.mem_cons.mp hx with h | h
    · simp [h]
    · exact List.mem_cons_of_mem n (ih x (List.mem_of_mem_filter h))

/-- Deduplication of a constant name list collapses to that name. -/
theorem dedupKeepFirst_const (name : String) (l : List String) (h : ∀ x ∈ l, x = name) :
    dedupKeepFirst (name :: l) = [name] := by
  simp only [dedupKeepFirst]
  have h2 : (dedupKeepFirst l).filter (fun m => m ≠ name) = [] := by
    rw [List.filter_eq_nil_iff]
    intro x hx
    simp [h x (dedupKeepFirst_mem l x hx)]
  rw [h2]

/-- Discovery of a freshly created cluster: a state whose other containers
belong to other clusters, holding the server container and the given
workers, is discovered as exactly that one cluster. -/
theorem getClusters_created (base ws : List Container) (name : String)
    (nets vols dirs : List String)
    (hbase : ∀ c ∈ base, c.cluster ≠ name)
    (hws : ∀ w ∈ ws, w.cluster = name ∧ w.component = ("worker")) :
    getClusters false name (RTState.mk (base ++ serverContainer name :: ws) nets vols dirs) =
      [Cluster.mk name (serverContainer name) ws] := by
  unfold getClusters
  have hmatch :
      (base ++ serverContainer name :: ws).filter (fun c => false || c.cluster = name) =
        serverContainer name :: ws := by
    rw [List.filter_append]
    have h1 : base.filter (fun c => false || c.cluster = name) = [] := by
      rw [List.filter_eq_nil_iff]
      intro c hc
      simp [hbase c hc]
    have h2 : (serverContainer name :: ws).filter (fun c => false || c.cluster = name) =
        serverContainer name :: ws := by
      rw [List.filter_eq_self]
      intro c hc
      rcases List.mem_cons.mp hc with h | h
      · subst h; simp [serverContainer]
      · simp [(hws c h).1]
    rw [h1, h2, List.nil_append]
  simp only [hmatch]
  have hnames : (serverContainer name :: ws).map (fun c => c.cluster) =
      name :: ws.map (fun c => c.cluster) := by
    simp [serverContainer]
  rw [hnames, dedupKeepFirst_const name _ (by
    intro x hx
    simp only [List.mem_map] at hx
    obtain ⟨w, hw, hww⟩ := hx
    rw [← hww]
    exact (hws w hw).1)]
  have hmem2 : (serverContainer name :: ws).filter (fun c => c.cluster = name) =
      serverContainer name :: ws := by
    rw [List.filter_eq_self]
    intro c hc
    rcases List.mem_cons.mp hc with h | h
    · subst h; simp [serverContainer]
    · simp [(hws c h).1]
  have hserver : (serverContainer name :: ws).filter (fun c => c.component = ("server")) =
      [serverContainer name] := by
    rw [List.filter_cons_of_pos (by simp [serverContainer])]
    have : ws.filter (fun c => c.component = ("server")) = [] := by
      rw [List.filter_eq_nil_iff]
      intro w hw
      simp [(hws w hw).2]
    rw [this]
  have hworkers : (serverContainer name :: ws).filter (fun c => c.component = ("worker")) =
      ws := by
    rw [List.filter_cons_of_neg (by simp [serverContainer])]
    rw [List.filter_eq_self]
    intro w hw
    simp [(hws w hw).2]
  simp only [List.filterMap_cons, List.filterMap_nil, hmem2, hserver, hworkers]

/-- The rollback of `CreateCluster`, run on the state holding exactly the
resources created so far (network, volume, directory, server and some
workers) on top of a state with no containers of the cluster, removes every
container of the cluster as well as its network and volume. -/
theorem rollbackState_clean (name : String) (base ws : List Container)
    (nets vols dirs : List String)
    (hbase : ∀ c ∈ base, c.cluster ≠ name)
    (hws : ∀ w ∈ ws, w.cluster = name ∧ w.component = ("worker")) :
    (∀ c ∈ (rollbackState name
        (RTState.mk (base ++ serverContainer name :: ws) nets vols dirs)).containers,
      c.cluster ≠ name) ∧
    clusterNetworkName name ∉ (rollbackState name
        (RTState.mk (base ++ serverContainer name :: ws) nets vols dirs)).networks ∧
    imageVolumeName name ∉ (rollbackState name
        (RTState.mk (base ++ serverContainer name :: ws) nets vols dirs)).volumes := by
  have hg := getClusters_created base ws name nets vols dirs hbase hws
  have hone := deleteOneCluster_noFail (Cluster.mk name (serverContainer name) ws)
    (RTState.mk (base ++ serverContainer name :: ws) nets vols dirs)
  rcases hdo : deleteOneCluster (fun _ => false) (fun _ => false) (fun _ => false)
      (Cluster.mk name (serverContainer name) ws)
      (RTState.mk (base ++ serverContainer name :: ws) nets vols dirs) with ⟨st2, evs, r⟩
  rw [hdo] at hone
  have hr : r = Except.ok () := hone.2.2.2
  subst hr
  have hroll : rollbackState name (RTState.mk (base ++ serverContainer name :: ws) nets
      vols dirs) = st2 := by
    unfold rollbackState DeleteCluster
    rw [hg]
    simp [deleteClustersLoop, hdo]
  rw [hroll]
  refine ⟨?_, ?_, ?_⟩
  · intro c hc
    rw [hone.1 c] at hc
    obtain ⟨hmem, hwids, hsid⟩ := hc
    intro hclname
    rcases List.mem_append.mp hmem with h | h
    · exact hbase c h hclname
    · rcases List.mem_cons.mp h with h2 | h2
      · exact hsid (by rw [h2])
      · exact hwids c h2 rfl
  · rw [hone.2.1]
    intro hmem
    exact of_decide_eq_true (List.mem_filter.mp hmem).2 (by simp)
  · rw [hone.2.2.1]
    intro hmem
    exact of_decide_eq_true (List.mem_filter.mp hmem).2 (by simp)

/-- Successful worker-creation loop: all remaining ordinals are created in
order and appended to the state. -/
theorem createWorkersLoopFuel_noFail (name : String) :
    ∀ (rem i : Nat) (st : RTState),
      createWorkersLoopFuel FailAt.noFail name i rem st =
        ({ st with containers := st.containers ++
            (List.range' i rem).map (fun j => workerContainer name (Int.ofNat j)) },
         (List.range' i rem).map CreateStep.createdWorker, Except.ok ()) := by
  intro rem
  induction rem with
  | zero => intro i st; simp [createWorkersLoopFuel, List.range']
  | succ m ih =>
    intro i st
    have hne : FailAt.noFail ≠ FailAt.worker i := by intro h; cases h
    simp only [createWorkersLoopFuel, if_neg hne]
    rw [ih (i + 1)]
    rw [List.range'_succ]
    simp [List.append_assoc]

/-- Worker-creation loop failing at ordinal `k`: the ordinals before `k` are
created, then the rollback runs on the accumulated state and the error is
returned. -/
theorem createWorkersLoopFuel_fail (name : String) (k : Nat) :
    ∀ (rem i : Nat) (st : RTState), i ≤ k → k < i + rem →
      createWorkersLoopFuel (FailAt.worker k) name i rem st =
        (rollbackState name ({ st with containers := st.containers ++
            (List.range' i (k - i)).map (fun j => workerContainer name (Int.ofNat j)) }),
         (List.range' i (k - i)).map CreateStep.createdWorker ++ [CreateStep.rolledBack],
         Except.error (("ERROR: Couldn't create worker ") ++ toString k)) := by
  intro rem
  induction rem with
  | zero => intro i st h1 h2; omega
  | succ m ih =>
    intro i st h1 h2
    by_cases hik : i = k
    · subst hik
      simp [createWorkersLoopFuel, Nat.sub_self, List.range']
    · have hlt : i < k := lt_of_le_of_ne h1 (fun h => hik h)
      have hcond : FailAt.worker k ≠ FailAt.worker i := by
        intro h
        cases h
        exact hik rfl
      simp only [createWorkersLoopFuel, if_neg hcond]
      rw [ih (i + 1) _ (by omega) (by omega)]
      have hr : List.range' i (k - i) = i :: List.range' (i + 1) (k - (i + 1)) := by
        have h3 : k - i = (k - (i + 1)) + 1 := by omega
        rw [h3, List.range'_succ]
      rw [hr]
      simp [List.append_assoc]

/-- C3: on a cluster whose existing worker names all carry numeric trailing
suffixes, `AddNode` computes the maximum existing suffix `m` and creates
exactly the consecutive ordinals `m+1 .. m+count`, each strictly above every
existing suffix — so a gap ordinal below the maximum is never reused; if any
existing worker name's trailing suffix is not numeric, `AddNode` fails with
the parse error instead of creating nodes. -/
theorem addNode_suffix_allocation :
    (∀ (serverEnv serverCmd : List String) (serverName p : String) (ws : List String)
        (ns : List Int) (count : Int),
      extractClusterSecret serverEnv ≠ ("") →
      extractListenPort serverCmd = PortScan.value p → p ≠ ("") →
      ws.map trailingSuffix = ns.map some → ws ≠ [] →
      ∃ m : Int,
        highestWorkerSuffix ws = Except.ok m ∧ m ∈ ns ∧ (∀ n ∈ ns, n ≤ m) ∧
        AddNode serverEnv serverCmd serverName ws count =
          AddNodeOutcome.created
            [("K3S_URL=https://") ++ serverName ++ (":") ++ p, extractClusterSecret serverEnv]
            ((List.range count.toNat).map (fun (i : Nat) => m + 1 + (i : Int))) ∧
        (∀ x ∈ (List.range count.toNat).map (fun (i : Nat) => m + 1 + (i : Int)),
          ∀ n ∈ ns, n < x)) ∧
    (∀ (serverEnv serverCmd : List String) (serverName p : String) (ws : List String)
        (count : Int),
      extractClusterSecret serverEnv ≠ ("") →
      extractListenPort serverCmd = PortScan.value p → p ≠ ("") →
      (∃ w ∈ ws, trailingSuffix w = none) →
      AddNode serverEnv serverCmd serverName ws count =
        AddNodeOutcome.failed ("ERROR: failed to get highest worker suffix")) := by
  constructor
  · intro serverEnv serverCmd serverName p ws ns count hsec hport hp hmap hne
    set m := ns.foldl (fun a n => if n > a then n else a) 0 with hm
    have hok : highestWorkerSuffix ws = Except.ok m :=
      highestWorkerSuffixLoop_ok ws ns 0 hmap
    have hge : ∀ n ∈ ns, n ≤ m := fun n hn => suffixFold_ge ns 0 n hn
    have hnonneg : ∀ n ∈ ns, 0 ≤ n := by
      intro n hn
      obtain ⟨w, hw, hpw⟩ := map_trailingSuffix_mem ws ns hmap n hn
      exact trailingSuffix_nonneg w n hpw
    have hnsne : ns ≠ [] := by
      intro hEq
      rw [hEq] at hmap
      simp only [List.map_nil, List.map_eq_nil_iff] at hmap
      exact hne hmap
    have hmem : m ∈ ns := by
      rcases suffixFold_mem ns 0 with h | h
      · cases ns with
        | nil => exact absurd rfl hnsne
        | cons a t =>
          have h1 : a ≤ m := hge a (List.mem_cons_self a t)
          have h2 : 0 ≤ a := hnonneg a (List.mem_cons_self a t)
          have h3 : a = m := by omega
          rw [← h3]
          exact List.mem_cons_self a t
      · exact h
    refine ⟨m, hok, hmem, hge, ?_, ?_⟩
    · unfold AddNode
      rw [if_neg hsec, hport]
      dsimp only
      rw [if_neg hp, hok]
      dsimp only
      rw [addNodeSuffixLoop_eq m count]
    · intro x hx n hn
      simp only [List.mem_map] at hx
      obtain ⟨i, _, hi⟩ := hx
      have h1 := hge n hn
      omega
  · intro serverEnv serverCmd serverName p ws count hsec hport hp hbad
    unfold AddNode
    rw [if_neg hsec, hport]
    dsimp only
    rw [if_neg hp]
    rw [show highestWorkerSuffix ws =
        Except.error ("ERROR: failed to get highest worker suffix") from
      highestWorkerSuffixLoop_error ws 0 hbad]

/-- C3 witness: the spec's example — existing workers `c-worker-0` and
`c-worker-2`, adding two nodes — yields the maximum suffix `2` and creates
the ordinals above it (`3` and `4`), never the gap ordinal `1`. -/
theorem addNode_suffix_allocation_witness :
    ∃ m : Int,
      highestWorkerSuffix [("c-worker-0"), ("c-worker-2")] = Except.ok m ∧
      m ∈ ([0, 2] : List Int) ∧ (∀ n ∈ ([0, 2] : List Int), n ≤ m) ∧
      AddNode [("K3S_CLUSTER_SECRET=abc")] [("--https-listen-port"), ("6443")] ("c-server")
          [("c-worker-0"), ("c-worker-2")] 2 =
        AddNodeOutcome.created
          [("K3S_URL=https://") ++ ("c-server") ++ (":") ++ ("6443"),
           extractClusterSecret [("K3S_CLUSTER_SECRET=abc")]]
          ((List.range (2 : Int).toNat).map (fun (i : Nat) => m + 1 + (i : Int))) ∧
      (∀ x ∈ (List.range (2 : Int).toNat).map (fun (i : Nat) => m + 1 + (i : Int)),
        ∀ n ∈ ([0, 2] : List Int), n < x) :=
  addNode_suffix_allocation.1 [("K3S_CLUSTER_SECRET=abc")] [("--https-listen-port"), ("6443")]
    ("c-server") ("6443") [("c-worker-0"), ("c-worker-2")] [0, 2] 2
    (by decide) (by decide) (by decide) (by decide) (by decide)

/-- C4: the join deriver reuses the server container's cluster-secret
environment entry verbatim and builds the join URL from the server
container's own name and the value following the `--https-listen-port` flag;
a missing secret entry or a missing port flag each yield an error outcome
that creates no nodes. -/
theorem addNode_join_config :
    (∀ (enva envb pre post : List String) (e p serverName : String) (ws : List String)
        (count highest : Int),
      keyOfEnvVar e = ("K3S_CLUSTER_SECRET").data →
      (∀ x ∈ envb, keyOfEnvVar x ≠ ("K3S_CLUSTER_SECRET").data) →
      ("--https-listen-port") ∉ pre → ("--https-listen-port") ∉ post →
      p ≠ ("--https-listen-port") → p ≠ ("") →
      highestWorkerSuffix ws = Except.ok highest →
      extractClusterSecret (enva ++ e :: envb) = e ∧
      extractListenPort (pre ++ ("--https-listen-port") :: p :: post) = PortScan.value p ∧
      AddNode (enva ++ e :: envb) (pre ++ ("--https-listen-port") :: p :: post) serverName
          ws count =
        AddNodeOutcome.created
          [("K3S_URL=https://") ++ serverName ++ (":") ++ p, e]
          (addNodeSuffixLoop (highest + 1) (count + 1 + highest))) ∧
    (∀ (env cmd : List String) (serverName : String) (ws : List String) (count : Int),
      (∀ x ∈ env, keyOfEnvVar x ≠ ("K3S_CLUSTER_SECRET").data) →
      AddNode env cmd serverName ws count =
        AddNodeOutcome.failed ("ERROR: couldn't get cluster secret from server container")) ∧
    (∀ (env cmd : List String) (serverName : String) (ws : List String) (count : Int),
      extractClusterSecret env ≠ ("") → ("--https-listen-port") ∉ cmd →
      AddNode env cmd serverName ws count =
        AddNodeOutcome.failed ("ERROR: couldn't get https-listen-port form server contaienr")) := by
  refine ⟨?_, ?_, ?_⟩
  · intro enva envb pre post e p serverName ws count highest hkey hb hpre hpost hpf hpe hws
    have hsec : extractClusterSecret (enva ++ e :: envb) = e :=
      extractClusterSecret_found enva envb e hkey hb
    have hene : e ≠ ("") := secret_entry_ne_empty e hkey
    have hport : extractListenPort (pre ++ ("--https-listen-port") :: p :: post) =
        PortScan.value p := extractListenPort_found pre post p hpre hpost hpf
    refine ⟨hsec, hport, ?_⟩
    unfold AddNode
    rw [hsec, if_neg hene, hport]
    dsimp only
    rw [if_neg hpe, hws]
  · intro env cmd serverName ws count hnone
    have hsec : extractClusterSecret env = ("") :=
      extractClusterSecretLoop_noMatch env hnone ("")
    unfold AddNode
    rw [show extractClusterSecret env = ("") from hsec, if_pos rfl]
  · intro env cmd serverName ws count hsec hflag
    unfold AddNode
    rw [if_neg hsec]
    rw [show extractListenPort cmd = PortScan.value ("") from
      extractListenPortLoop_noFlag cmd hflag ("")]
    dsimp only
    rw [if_pos rfl]

/-- C4 witness: the spec's example — environment `K3S_CLUSTER_SECRET=abc`,
command `--https-listen-port 6443` — yields that secret entry verbatim and a
join URL referencing port `6443` on the server's name. -/
theorem addNode_join_config_witness :
    extractClusterSecret ([] ++ ("K3S_CLUSTER_SECRET=abc") :: []) =
      ("K3S_CLUSTER_SECRET=abc") ∧
    extractListenPort ([] ++ ("--https-listen-port") :: ("6443") :: []) =
      PortScan.value ("6443") ∧
    AddNode ([] ++ ("K3S_CLUSTER_SECRET=abc") :: [])
        ([] ++ ("--https-listen-port") :: ("6443") :: []) ("k3d-demo-server") [] 1 =
      AddNodeOutcome.created
        [("K3S_URL=https://") ++ ("k3d-demo-server") ++ (":") ++ ("6443"),
         ("K3S_CLUSTER_SECRET=abc")]
        (addNodeSuffixLoop (0 + 1) (1 + 1 + 0)) :=
  addNode_join_config.1 [] [] [] [] ("K3S_CLUSTER_SECRET=abc") ("6443") ("k3d-demo-server")
    [] 1 0 (by decide) (by intro x hx; cases hx) (by intro h; cases h) (by intro h; cases h)
    (by decide) (by decide) rfl

/-- C10: with zero existing workers the highest-suffix accumulator keeps its
initial value `0`, so `AddNode` numbers its first created worker `1` (never
`0`) — whereas `CreateCluster` gives its first worker ordinal `0` — and no
`AddNode` invocation can ever produce ordinal `0`. -/
theorem addNode_fresh_cluster_first_suffix :
    highestWorkerSuffix [] = Except.ok 0 ∧
    (∀ (env cmd : List String) (serverName p : String) (count : Int),
      extractClusterSecret env ≠ ("") →
      extractListenPort cmd = PortScan.value p → p ≠ ("") →
      AddNode env cmd serverName [] count =
        AddNodeOutcome.created
          [("K3S_URL=https://") ++ serverName ++ (":") ++ p, extractClusterSecret env]
          ((List.range count.toNat).map (fun (i : Nat) => (0 : Int) + 1 + (i : Int))) ∧
      (1 ≤ count →
        ((List.range count.toNat).map
          (fun (i : Nat) => (0 : Int) + 1 + (i : Int))).head? = some 1)) ∧
    (∀ (ws : List String) (mh count : Int), highestWorkerSuffix ws = Except.ok mh →
      (0 : Int) ∉ addNodeSuffixLoop (mh + 1) (count + 1 + mh)) ∧
    (∀ (name : String) (N : Nat) (waitSet : Bool) (st : RTState),
      getClusters false name st = [] → 1 ≤ N →
      CreateStep.createdWorker 0 ∈ (CreateCluster FailAt.noFail true name N waitSet st).2.1) := by
  refine ⟨rfl, ?_, ?_, ?_⟩
  · intro env cmd serverName p count hsec hport hp
    constructor
    · unfold AddNode
      rw [if_neg hsec, hport]
      dsimp only
      rw [if_neg hp]
      rw [show highestWorkerSuffix [] = Except.ok 0 from rfl]
      dsimp only
      rw [show addNodeSuffixLoop ((0 : Int) + 1) (count + 1 + 0) =
          (List.range count.toNat).map (fun (i : Nat) => (0 : Int) + 1 + (i : Int)) from
        addNodeSuffixLoop_eq 0 count]
    · intro hcount
      have h1 : count.toNat = (count.toNat - 1) + 1 := by omega
      rw [h1, List.range_succ_eq_map]
      simp
  · intro ws mh count hok
    have hge : (0 : Int) ≤ mh := highestWorkerSuffixLoop_ge ws 0 mh hok
    rw [addNodeSuffixLoop_eq mh count]
    intro hmem
    simp only [List.mem_map] at hmem
    obtain ⟨i, _, hi⟩ := hmem
    omega
  · intro name N waitSet st hempty hN
    unfold CreateCluster
    rw [if_neg (by simp : ¬ (true = false))]
    rw [if_neg (by simp [hempty] : ¬ getClusters false name st ≠ [])]
    simp only [show (FailAt.noFail = FailAt.server) = False from
        eq_false (fun h => by cases h),
      show (waitSet = true ∧ FailAt.noFail = FailAt.wait) = False from
        eq_false (fun h => by cases h.2),
      if_false]
    unfold createWorkersLoop
    rw [createWorkersLoopFuel_noFail]
    simp only [Nat.sub_zero]
    have hmem : CreateStep.createdWorker 0 ∈ (List.range' 0 N).map CreateStep.createdWorker := by
      have h0 : 0 ∈ List.range' 0 N := by
        rw [List.mem_range']
        exact ⟨0, by omega, by omega⟩
      exact List.mem_map_of_mem CreateStep.createdWorker h0
    simp [hmem]

/-- C10 witness: adding two workers to a fresh server-only cluster creates
ordinals `1` and `2`, the first being `1`, and a one-worker `CreateCluster`
run creates ordinal `0`. -/
theorem addNode_fresh_cluster_first_suffix_witness :
    (AddNode [("K3S_CLUSTER_SECRET=abc")] [("--https-listen-port"), ("6443")] ("srv") [] 2 =
      AddNodeOutcome.created
        [("K3S_URL=https://") ++ ("srv") ++ (":") ++ ("6443"),
         extractClusterSecret [("K3S_CLUSTER_SECRET=abc")]]
        ((List.range (2 : Int).toNat).map (fun (i : Nat) => (0 : Int) + 1 + (i : Int))) ∧
      (1 ≤ (2 : Int) →
        ((List.range (2 : Int).toNat).map
          (fun (i : Nat) => (0 : Int) + 1 + (i : Int))).head? = some 1)) ∧
    ((0 : Int) ∉ addNodeSuffixLoop ((0 : Int) + 1) ((5 : Int) + 1 + 0)) ∧
    CreateStep.createdWorker 0 ∈
      (CreateCluster FailAt.noFail true ("demo") 1 false ⟨[], [], [], []⟩).2.1 :=
  ⟨addNode_fresh_cluster_first_suffix.2.1 [("K3S_CLUSTER_SECRET=abc")]
      [("--https-listen-port"), ("6443")] ("srv") ("6443") 2
      (by decide) (by decide) (by decide),
   addNode_fresh_cluster_first_suffix.2.2.1 [] 0 5 rfl,
   addNode_fresh_cluster_first_suffix.2.2.2 ("demo") 1 false ⟨[], [], [], []⟩ (by decide)
     (by decide)⟩

/-- Run of `CreateCluster` that fails while creating worker `k < N`: network,
volume, directory, server and workers `0 .. k-1` are created, then the
rollback runs on that state and the error is returned. -/
theorem createCluster_worker_fail_run (name : String) (N k : Nat) (waitSet : Bool)
    (st : RTState) (hu : getClusters false name st = []) (hk : k < N) :
    CreateCluster (FailAt.worker k) true name N waitSet st =
      (rollbackState name (RTState.mk
          (st.containers ++ serverContainer name ::
            (List.range' 0 k).map (fun j => workerContainer name (Int.ofNat j)))
          (st.networks ++ [clusterNetworkName name])
          (st.volumes ++ [imageVolumeName name])
          (st.dirs ++ [name])),
       [CreateStep.checkedName, CreateStep.checkedUnique, CreateStep.createdNetwork,
        CreateStep.createdImageVolume, CreateStep.createdClusterDir, CreateStep.createdServer]
         ++ (if waitSet then [CreateStep.waitedReady] else [])
         ++ (List.range' 0 k).map CreateStep.createdWorker ++ [CreateStep.rolledBack],
       Except.error (("ERROR: Couldn't create worker ") ++ toString k)) := by
  unfold CreateCluster
  rw [if_neg (by simp : ¬ (true = false))]
  rw [if_neg (by simp [hu] : ¬ getClusters false name st ≠ [])]
  simp only [show (FailAt.worker k = FailAt.server) = False from
      eq_false (fun hx => by cases hx),
    show (waitSet = true ∧ FailAt.worker k = FailAt.wait) = False from
      eq_false (fun hx => by cases hx.2),
    if_false]
  unfold createWorkersLoop
  simp only [Nat.sub_zero]
  rw [createWorkersLoopFuel_fail name k N 0 _ (by omega) (by omega)]
  simp [List.append_assoc]

/-- Run of `CreateCluster` that fails during the readiness wait: network,
volume, directory and server are created, then the rollback runs and the
error is returned. -/
theorem createCluster_wait_fail_run (name : String) (N : Nat) (st : RTState)
    (hu : getClusters false name st = []) :
    CreateCluster FailAt.wait true name N true st =
      (rollbackState name (RTState.mk
          (st.containers ++ serverContainer name :: [])
          (st.networks ++ [clusterNetworkName name])
          (st.volumes ++ [imageVolumeName name])
          (st.dirs ++ [name])),
       [CreateStep.checkedName, CreateStep.checkedUnique, CreateStep.createdNetwork,
        CreateStep.createdImageVolume, CreateStep.createdClusterDir, CreateStep.createdServer,
        CreateStep.rolledBack],
       Except.error ("ERROR: failed while waiting for server to come up")) := by
  unfold CreateCluster
  rw [if_neg (by simp : ¬ (true = false))]
  rw [if_neg (by simp [hu] : ¬ getClusters false name st ≠ [])]
  simp only [show (FailAt.wait = FailAt.server) = False from
      eq_false (fun hx => by cases hx),
    if_false]
  simp only [and_self, if_true]
  rfl

/-- C5 counterexample: on a fresh one-worker Create with a wait requested,
the executed trace creates the local cluster artifact directory before the
server — the last step is the worker creation, not the directory creation
the claim puts last. -/
theorem createCluster_dir_not_last :
    (CreateCluster FailAt.noFail true ("demo") 1 true ⟨[], [], [], []⟩).2.1 =
      [CreateStep.checkedName, CreateStep.checkedUnique, CreateStep.createdNetwork,
       CreateStep.createdImageVolume, CreateStep.createdClusterDir, CreateStep.createdServer,
       CreateStep.waitedReady, CreateStep.createdWorker 0] ∧
    (CreateCluster FailAt.noFail true ("demo") 1 true ⟨[], [], [], []⟩).2.1.getLast? ≠
      some CreateStep.createdClusterDir := by
  decide

/-- C5 amended: for every valid and unique name, `CreateCluster` executes
(1) name validation, (2) the uniqueness check, (3) network creation,
(4) image-volume creation, then (5) creation of the local cluster artifact
directory — before the server, not last — then (6) server creation, (7) the
readiness wait when requested, and (8) the workers with ordinals `0..N-1`;
an invalid or duplicate name errors before any resource is created. -/
theorem createCluster_step_order (name : String) (N : Nat) (waitSet : Bool) (st : RTState)
    (h : getClusters false name st = []) :
    CreateCluster FailAt.noFail true name N waitSet st =
      (RTState.mk
        (st.containers ++ serverContainer name ::
          (List.range' 0 N).map (fun j => workerContainer name (Int.ofNat j)))
        (st.networks ++ [clusterNetworkName name])
        (st.volumes ++ [imageVolumeName name])
        (st.dirs ++ [name]),
       [CreateStep.checkedName, CreateStep.checkedUnique, CreateStep.createdNetwork,
        CreateStep.createdImageVolume, CreateStep.createdClusterDir, CreateStep.createdServer]
         ++ (if waitSet then [CreateStep.waitedReady] else [])
         ++ (List.range' 0 N).map CreateStep.createdWorker,
       Except.ok ()) ∧
    (∀ (fail : FailAt) (N2 : Nat) (w2 : Bool) (st2 : RTState),
      ∃ e, CreateCluster fail false name N2 w2 st2 = (st2, [], Except.error e)) ∧
    (∀ (fail : FailAt) (N2 : Nat) (w2 : Bool) (st2 : RTState),
      getClusters false name st2 ≠ [] →
      ∃ e, CreateCluster fail true name N2 w2 st2 =
        (st2, [CreateStep.checkedName], Except.error e)) := by
  refine ⟨?_, ?_, ?_⟩
  · unfold CreateCluster
    rw [if_neg (by simp : ¬ (true = false))]
    rw [if_neg (by simp [h] : ¬ getClusters false name st ≠ [])]
    simp only [show (FailAt.noFail = FailAt.server) = False from
        eq_false (fun hx => by cases hx),
      show (waitSet = true ∧ FailAt.noFail = FailAt.wait) = False from
        eq_false (fun hx => by cases hx.2),
      if_false]
    unfold createWorkersLoop
    rw [createWorkersLoopFuel_noFail]
    simp only [Nat.sub_zero]
    simp [List.append_assoc]
  · intro fail N2 w2 st2
    refine ⟨("ERROR: invalid cluster name ") ++ name, ?_⟩
    unfold CreateCluster
    rw [if_pos rfl]
  · intro fail N2 w2 st2 h2
    refine ⟨("ERROR: Cluster ") ++ name ++ (" already exists"), ?_⟩
    unfold CreateCluster
    rw [if_neg (by simp : ¬ (true = false)), if_pos h2]

/-- C5 witness: the trace of a fresh one-worker Create with a wait
requested, with the directory step before the server step. -/
theorem createCluster_step_order_witness :
    CreateCluster FailAt.noFail true ("demo") 1 true ⟨[], [], [], []⟩ =
      (RTState.mk
        (([] : List Container) ++ serverContainer ("demo") ::
          (List.range' 0 1).map (fun j => workerContainer ("demo") (Int.ofNat j)))
        (([] : List String) ++ [clusterNetworkName ("demo")])
        (([] : List String) ++ [imageVolumeName ("demo")])
        (([] : List String) ++ [("demo")]),
       [CreateStep.checkedName, CreateStep.checkedUnique, CreateStep.createdNetwork,
        CreateStep.createdImageVolume, CreateStep.createdClusterDir, CreateStep.createdServer]
         ++ (if true then [CreateStep.waitedReady] else [])
         ++ (List.range' 0 1).map CreateStep.createdWorker,
       Except.ok ()) ∧
    (∀ (fail : FailAt) (N2 : Nat) (w2 : Bool) (st2 : RTState),
      ∃ e, CreateCluster fail false ("demo") N2 w2 st2 = (st2, [], Except.error e)) ∧
    (∀ (fail : FailAt) (N2 : Nat) (w2 : Bool) (st2 : RTState),
      getClusters false ("demo") st2 ≠ [] →
      ∃ e, CreateCluster fail true ("demo") N2 w2 st2 =
        (st2, [CreateStep.checkedName], Except.error e)) :=
  createCluster_step_order ("demo") 1 true ⟨[], [], [], []⟩ (by decide)

/-- C1 counterexample: when server creation itself fails, the rollback's
label-based discovery finds zero containers for the name and removes
nothing, so the already-created cluster network and image volume survive —
not the zero-network, zero-volume state the claim requires for a failure
"while creating the server". -/
theorem createCluster_server_fail_leftover :
    (CreateCluster FailAt.server true ("demo") 2 false ⟨[], [], [], []⟩).1.networks =
      [clusterNetworkName ("demo")] ∧
    (CreateCluster FailAt.server true ("demo") 2 false ⟨[], [], [], []⟩).1.volumes =
      [imageVolumeName ("demo")] ∧
    ¬ ((CreateCluster FailAt.server true ("demo") 2 false ⟨[], [], [], []⟩).1.networks = [] ∧
       (CreateCluster FailAt.server true ("demo") 2 false ⟨[], [], [], []⟩).1.volumes = []) := by
  decide

/-- C1 amended: when `CreateCluster` fails while creating worker `k < N` or
while waiting for readiness (so after the server container exists), the
rollback — with runtime removals succeeding — leaves zero containers, no
network and no volume for that name, and the error is returned; when server
creation itself fails, however, the discovery-based rollback removes nothing
and the network and volume are left behind (see the counterexample). -/
theorem createCluster_rollback_clean (name : String) (N k : Nat) (waitSet : Bool)
    (st : RTState) (hC : ∀ c ∈ st.containers, c.cluster ≠ name) (hk : k < N) :
    (∀ c ∈ (CreateCluster (FailAt.worker k) true name N waitSet st).1.containers,
      c.cluster ≠ name) ∧
    clusterNetworkName name ∉
      (CreateCluster (FailAt.worker k) true name N waitSet st).1.networks ∧
    imageVolumeName name ∉
      (CreateCluster (FailAt.worker k) true name N waitSet st).1.volumes ∧
    (∃ e, (CreateCluster (FailAt.worker k) true name N waitSet st).2.2 = Except.error e) ∧
    (∀ c ∈ (CreateCluster FailAt.wait true name N true st).1.containers, c.cluster ≠ name) ∧
    clusterNetworkName name ∉ (CreateCluster FailAt.wait true name N true st).1.networks ∧
    imageVolumeName name ∉ (CreateCluster FailAt.wait true name N true st).1.volumes ∧
    (∃ e, (CreateCluster FailAt.wait true name N true st).2.2 = Except.error e) := by
  have hu : getClusters false name st = [] := getClusters_eq_nil name st hC
  have hwr := createCluster_worker_fail_run name N k waitSet st hu hk
  have htr := createCluster_wait_fail_run name N st hu
  have hwsW : ∀ w ∈ (List.range' 0 k).map (fun j => workerContainer name (Int.ofNat j)),
      w.cluster = name ∧ w.component = ("worker") := by
    intro w hw
    simp only [List.mem_map] at hw
    obtain ⟨j, _, hj⟩ := hw
    rw [← hj]
    exact ⟨rfl, rfl⟩
  have hclean1 := rollbackState_clean name st.containers
    ((List.range' 0 k).map (fun j => workerContainer name (Int.ofNat j)))
    (st.networks ++ [clusterNetworkName name]) (st.volumes ++ [imageVolumeName name])
    (st.dirs ++ [name]) hC hwsW
  have hclean2 := rollbackState_clean name st.containers []
    (st.networks ++ [clusterNetworkName name]) (st.volumes ++ [imageVolumeName name])
    (st.dirs ++ [name]) hC (by intro w hw; cases hw)
  rw [hwr, htr]
  exact ⟨hclean1.1, hclean1.2.1, hclean1.2.2, ⟨_, rfl⟩,
    hclean2.1, hclean2.2.1, hclean2.2.2, ⟨_, rfl⟩⟩

/-- C1 witness: a two-worker Create on an empty runtime failing at worker 1
(and one failing at the readiness wait) rolls back to a state with no
container, network or volume of the cluster. -/
theorem createCluster_rollback_clean_witness :
    (∀ c ∈ (CreateCluster (FailAt.worker 1) true ("demo") 2 false
        ⟨[], [], [], []⟩).1.containers, c.cluster ≠ ("demo")) ∧
    clusterNetworkName ("demo") ∉
      (CreateCluster (FailAt.worker 1) true ("demo") 2 false ⟨[], [], [], []⟩).1.networks ∧
    imageVolumeName ("demo") ∉
      (CreateCluster (FailAt.worker 1) true ("demo") 2 false ⟨[], [], [], []⟩).1.volumes ∧
    (∃ e, (CreateCluster (FailAt.worker 1) true ("demo") 2 false ⟨[], [], [], []⟩).2.2 =
      Except.error e) ∧
    (∀ c ∈ (CreateCluster FailAt.wait true ("demo") 2 true ⟨[], [], [], []⟩).1.containers,
      c.cluster ≠ ("demo")) ∧
    clusterNetworkName ("demo") ∉
      (CreateCluster FailAt.wait true ("demo") 2 true ⟨[], [], [], []⟩).1.networks ∧
    imageVolumeName ("demo") ∉
      (CreateCluster FailAt.wait true ("demo") 2 true ⟨[], [], [], []⟩).1.volumes ∧
    (∃ e, (CreateCluster FailAt.wait true ("demo") 2 true ⟨[], [], [], []⟩).2.2 =
      Except.error e) :=
  createCluster_rollback_clean ("demo") 2 1 false ⟨[], [], [], []⟩
    (by intro c hc; cases hc) (by omega)

end K3d
